import Mathlib

/-!
Verification of the SunThemeSwitcher core: a shallow embedding of
SunThemeSwitcher.py (the SunriseSunset solar solver and the SunThemeSwitcher
day/night classifier) together with theorems settling the specification
claims about it.

Conventions of the embedding:
  - Python datetime objects are modelled by the structure Instant below;
    a timezone is a fixed UTC offset in whole minutes (tz = some offset),
    tz = none models a naive datetime.
  - Comparison of timezone-aware datetimes is comparison of their UTC
    timestamps; toUTCMicros encodes an Instant as microseconds on a
    continuous UTC timeline (via the standard civil-calendar day count).
  - Python floats are modelled by real numbers; Python ints by ℤ.
    Integer division in the Python 2 source (operator / on ints, with the
    positive divisors 12, 4, 9, 60, 1440) is floor division, which
    coincides with Lean's euclidean division on ℤ for positive divisors.
  - int(x) truncation toward zero on a float is truncTowardZero; Python 2
    round (half away from zero) is roundHalfAway.
-/

namespace SunSwitcher

/-- Model of a Python datetime: calendar fields plus an optional fixed UTC
offset in minutes (none models a naive datetime, i.e. tzinfo is None). -/
structure Instant where
  year : ℤ
  month : ℤ
  day : ℤ
  hour : ℤ
  minute : ℤ
  second : ℤ
  micro : ℤ
  tz : Option ℤ
  deriving DecidableEq, Repr

/-- Day count of a civil date on a continuous timeline (days since
1970-01-01, the standard days-from-civil algorithm), used to compare
datetimes as full timestamps the way Python compares them. -/
def daysFromCivil (y m d : ℤ) : ℤ :=
  let y2 := if m ≤ 2 then y - 1 else y
  let era := y2 / 400
  let yoe := y2 - era * 400
  let mp := (m + 9) % 12
  let doy := (153 * mp + 2) / 5 + d - 1
  let doe := yoe * 365 + yoe / 4 - yoe / 100 + doy
  era * 146097 + doe - 719468

/-- The UTC timestamp of an Instant in microseconds (offset taken as 0 for
a naive instant; the claims only involve timezone-aware instants).
Python orders timezone-aware datetimes by exactly this quantity. -/
def toUTCMicros (dt : Instant) : ℤ :=
  ((((daysFromCivil dt.year dt.month dt.day * 24 + dt.hour) * 60
      + dt.minute - dt.tz.getD 0) * 60 + dt.second)) * 1000000 + dt.micro

/-- Embedding of SunriseSunset.isNight (source lines 55-77): with
delta = timedelta(minutes=collar), it returns True iff
(sunrise - delta) > dateLocal or dateLocal > (sunset + delta), where the
comparisons are Python timezone-aware datetime comparisons, i.e.
comparisons of UTC timestamps; subtracting or adding a timedelta shifts
the UTC timestamp by exactly that amount (collar minutes =
collar * 60000000 microseconds). -/
def isNight (sunrise sunset dateLocal : Instant) (collar : ℚ) : Bool :=
  let delta : ℚ := collar * 60000000
  if ((toUTCMicros sunrise : ℚ) - delta > (toUTCMicros dateLocal : ℚ)) ∨
      ((toUTCMicros dateLocal : ℚ) > (toUTCMicros sunset : ℚ) + delta) then
    true
  else
    false

/-- The zenith table of SunriseSunset (source lines 17-21). -/
def ZENITH : List (String × ℚ) :=
  [("official", -0.833), ("civil", -6.0), ("nautical", -12.0),
   ("amateur", -15.0), ("astronomical", -18.0)]

/-- Embedding of the input validation in SunriseSunset's constructor
(source lines 32-41): error on a naive datetime, then on an unknown
zenith name, then on abs(lat) > 63. -/
def initCheck (tzinfo : Option ℤ) (zenith : String) (lat : ℚ) :
    Except String Unit :=
  if tzinfo = none then
    Except.error "The date must be a datetime object with timezone info."
  else if (ZENITH.lookup zenith).isNone then
    Except.error "Invalid zenith name"
  else if 63 < |lat| then
    Except.error "Invalid latitude"
  else
    Except.ok ()

/-- True exactly on the error outcome of a constructor run. -/
def isError : Except String Unit → Bool
  | Except.error _ => true
  | Except.ok _ => false

/-- Hour field of date.utctimetuple() for a local time-of-day h:minu under
a UTC offset of offset minutes (the UTC minute-of-day is the local
minute-of-day shifted by the offset, wrapped into one day). -/
def utcHourOf (h minu offset : ℤ) : ℤ :=
  ((h * 60 + minu - offset) % 1440) / 60

/-- Minute field of date.utctimetuple() under the same convention. -/
def utcMinuteOf (h minu offset : ℤ) : ℤ :=
  ((h * 60 + minu - offset) % 1440) % 60

/-- Embedding of the constructor's offset computation (source lines 47-50):
(localTuple[3] - utcTuple[3]) + (localTuple[4] - utcTuple[4]) / 60.0,
where localTuple[3], localTuple[4] are the local hour and minute fields
and the UTC fields come from utctimetuple. -/
def offsetUTCcomputed (h minu offset : ℤ) : ℚ :=
  ((h - utcHourOf h minu offset : ℤ) : ℚ)
    + ((minu - utcMinuteOf h minu offset : ℤ) : ℚ) / 60

/-- Embedding of SunThemeSwitcher.isItDark (source lines 251-274): the
force switches are consulted first, then the hour/minute-only chain of
comparisons between now and the stored sunrise and sunset times. -/
def isItDark (forceNight forceDay : Bool)
    (sunriseHour sunriseMinute sunsetHour sunsetMinute nowHour nowMinute : ℤ) :
    Bool :=
  if forceNight then true
  else if forceDay then false
  else if sunriseHour < nowHour ∧ nowHour < sunsetHour then false
  else if sunriseHour = nowHour then
    if sunriseMinute < nowMinute then false else true
  else if nowHour = sunsetHour then
    if nowMinute < sunsetMinute then false else true
  else true

/-- The boolean isNight is true exactly when the condition of its if
statement holds. -/
lemma isNight_eq_true_iff (a b c : Instant) (col : ℚ) :
    isNight a b c col = true ↔
      ((toUTCMicros a : ℚ) - col * 60000000 > (toUTCMicros c : ℚ) ∨
        (toUTCMicros c : ℚ) > (toUTCMicros b : ℚ) + col * 60000000) := by
  simp only [isNight]
  split
  · next hcond => exact iff_of_true rfl hcond
  · next hcond => exact iff_of_false (by simp) hcond

/-- Claim C1: for every SolarEvents pair (sunrise, sunset), every
timezone-aware instant now and every collarMinutes >= 0, isNight returns
true if and only if now < sunrise - collar or now > sunset + collar,
compared as full timestamps; in particular with collar = 0, at now equal
to sunrise or to sunset it returns false (day). -/
theorem c1_isNight_full_timestamp (sunrise sunset now : Instant) (collar : ℚ)
    (hc : 0 ≤ collar) :
    (isNight sunrise sunset now collar = true ↔
      ((toUTCMicros now : ℚ) < (toUTCMicros sunrise : ℚ) - collar * 60000000 ∨
        (toUTCMicros sunset : ℚ) + collar * 60000000 < (toUTCMicros now : ℚ)))
    ∧ (toUTCMicros sunrise ≤ toUTCMicros sunset →
        isNight sunrise sunset sunrise 0 = false ∧
        isNight sunrise sunset sunset 0 = false) := by
  refine ⟨isNight_eq_true_iff sunrise sunset now collar, ?_⟩
  intro hle
  have hle' : (toUTCMicros sunrise : ℚ) ≤ (toUTCMicros sunset : ℚ) := by
    exact_mod_cast hle
  constructor <;>
    · rw [← Bool.not_eq_true, isNight_eq_true_iff]
      push_neg
      constructor <;> norm_num <;> linarith

/-- Supporting lemma on the validation prefix of the constructor: it
errors exactly when the input instant lacks timezone information, the
zenith name is unrecognized, or abs(latitude) exceeds 63; latitude 64 and
-64 raise, 63 does not, and each of the five zenith names is accepted.
This settles only the validation: whether the downstream conversion can
raise a further error for some valid input (see the note on
get24HourLocalTime) is not decided here. -/
theorem initCheck_error_iff :
    (∀ (tzinfo : Option ℤ) (zen : String) (lat : ℚ),
      isError (initCheck tzinfo zen lat) = true ↔
        (tzinfo = none ∨ (ZENITH.lookup zen).isNone = true ∨ 63 < |lat|))
    ∧ isError (initCheck (some 0) "official" 64) = true
    ∧ isError (initCheck (some 0) "official" (-64)) = true
    ∧ isError (initCheck (some 0) "official" 63) = false
    ∧ isError (initCheck (some 0) "official" 0) = false
    ∧ isError (initCheck (some 0) "civil" 0) = false
    ∧ isError (initCheck (some 0) "nautical" 0) = false
    ∧ isError (initCheck (some 0) "amateur" 0) = false
    ∧ isError (initCheck (some 0) "astronomical" 0) = false
    ∧ isError (initCheck (some 0) "not a zenith" 0) = true := by
  refine ⟨?_, by decide, by decide, by decide, by decide, by decide,
    by decide, by decide, by decide, by decide⟩
  intro tzinfo zen lat
  unfold initCheck isError
  split_ifs with h1 h2 h3
  · exact ⟨fun _ => Or.inl h1, fun _ => rfl⟩
  · exact ⟨fun _ => Or.inr (Or.inl h2), fun _ => rfl⟩
  · exact ⟨fun _ => Or.inr (Or.inr h3), fun _ => rfl⟩
  · simp only [Bool.false_eq_true, false_iff]
    push_neg
    exact ⟨h1, fun hcon => absurd hcon h2, le_of_not_lt h3⟩

/-- Claim C3 counterexample: at a local time of 00:30 with UTC offset +60
minutes (one hour), the local calendar date is one day ahead of the UTC
calendar date, and the hour-field difference computed by the constructor
is -23 hours, not the actual offset of 1 hour. -/
theorem c3_counterexample :
    offsetUTCcomputed 0 30 60 ≠ ((60 : ℚ) / 60) := by
  norm_num [offsetUTCcomputed, utcHourOf, utcMinuteOf]

/-- Claim C3 (amended): for every in-range local time-of-day and UTC offset,
the computed offset equals the actual offset in decimal hours plus 24 times
the (day-) quotient of the local-minute-of-day minus the offset by 1440;
that quotient is always -1, 0 or 1, and it is 0 — so the computed offset is
exactly the actual offset — precisely when the local and UTC calendar dates
coincide (0 <= h*60 + minu - offset < 1440). -/
theorem c3_offset_amended (h minu offset : ℤ)
    (hh0 : 0 ≤ h) (hh1 : h ≤ 23) (hm0 : 0 ≤ minu) (hm1 : minu ≤ 59)
    (ho0 : -1440 < offset) (ho1 : offset < 1440) :
    offsetUTCcomputed h minu offset
        = (offset : ℚ) / 60 + 24 * (((h * 60 + minu - offset) / 1440 : ℤ) : ℚ)
    ∧ ((h * 60 + minu - offset) / 1440 = 0 ∨ (h * 60 + minu - offset) / 1440 = -1
        ∨ (h * 60 + minu - offset) / 1440 = 1)
    ∧ (0 ≤ h * 60 + minu - offset → h * 60 + minu - offset < 1440 →
        offsetUTCcomputed h minu offset = (offset : ℚ) / 60) := by
  have key : (h - utcHourOf h minu offset) * 60 + (minu - utcMinuteOf h minu offset)
      = offset + 1440 * ((h * 60 + minu - offset) / 1440) := by
    unfold utcHourOf utcMinuteOf
    omega
  have main : offsetUTCcomputed h minu offset
      = (offset : ℚ) / 60 + 24 * (((h * 60 + minu - offset) / 1440 : ℤ) : ℚ) := by
    unfold offsetUTCcomputed
    have keyQ : ((h - utcHourOf h minu offset : ℤ) : ℚ) * 60
        + ((minu - utcMinuteOf h minu offset : ℤ) : ℚ)
        = (offset : ℚ) + 1440 * (((h * 60 + minu - offset) / 1440 : ℤ) : ℚ) := by
      exact_mod_cast congrArg (fun z : ℤ => (z : ℚ)) key
    field_simp
    push_cast at keyQ ⊢
    linarith
  refine ⟨main, by omega, ?_⟩
  intro hT0 hT1
  have hq : (h * 60 + minu - offset) / 1440 = 0 := by omega
  rw [main, hq]
  norm_num

/-- Claim C3 witness: the amended statement instantiated at local time
00:30 under UTC offset +60 minutes. -/
theorem c3_offset_amended_witness :
    offsetUTCcomputed 0 30 60
        = (60 : ℚ) / 60 + 24 * (((0 * 60 + 30 - 60) / 1440 : ℤ) : ℚ)
    ∧ ((0 * 60 + 30 - 60 : ℤ) / 1440 = 0 ∨ (0 * 60 + 30 - 60 : ℤ) / 1440 = -1
        ∨ (0 * 60 + 30 - 60 : ℤ) / 1440 = 1)
    ∧ (0 ≤ (0 * 60 + 30 - 60 : ℤ) → (0 * 60 + 30 - 60 : ℤ) < 1440 →
        offsetUTCcomputed 0 30 60 = (60 : ℚ) / 60) :=
  c3_offset_amended 0 30 60 (by decide) (by decide) (by decide) (by decide)
    (by decide) (by decide)

/-- Claim C4 counterexample: with sunrise 06:00 and sunset 18:00 and both
force switches off, isItDark reports night both at exactly 06:00 and at
exactly 18:00, where the claim says it reports day. -/
theorem c4_counterexample :
    isItDark false false 6 0 18 0 6 0 = true ∧
    isItDark false false 6 0 18 0 18 0 = true := by decide

/-- Claim C4 (amended): with sunrise 06:00 and sunset 18:00 and both force
switches off, isItDark classifies 05:00 as night, 12:00 as day and 19:00 as
night, but exactly 06:00 as night (the current minute must strictly exceed
the sunrise minute to count as day) and exactly 18:00 as night (the current
minute must be strictly below the sunset minute to count as day). -/
theorem c4_isItDark_amended :
    isItDark false false 6 0 18 0 5 0 = true ∧
    isItDark false false 6 0 18 0 12 0 = false ∧
    isItDark false false 6 0 18 0 19 0 = true ∧
    isItDark false false 6 0 18 0 6 0 = true ∧
    isItDark false false 6 0 18 0 18 0 = true := by decide

/-- Claim C8: isItDark returns night whenever forceNight is set, regardless
of the stored times and the current time; returns day whenever forceDay is
set and forceNight is not; and when both are set forceNight wins. -/
theorem c8_force_switches (fd : Bool) (srH srM ssH ssM nH nM : ℤ) :
    isItDark true fd srH srM ssH ssM nH nM = true
    ∧ isItDark false true srH srM ssH ssM nH nM = false
    ∧ isItDark true true srH srM ssH ssM nH nM = true :=
  ⟨rfl, rfl, rfl⟩

/-- A concrete sunrise instant, 2020-06-21 06:00 UTC. -/
def wSunrise : Instant := ⟨2020, 6, 21, 6, 0, 0, 0, some 0⟩

/-- A concrete sunset instant, 2020-06-21 18:00 UTC. -/
def wSunset : Instant := ⟨2020, 6, 21, 18, 0, 0, 0, some 0⟩

/-- A concrete current instant, 2020-06-21 05:00 UTC. -/
def wNow : Instant := ⟨2020, 6, 21, 5, 0, 0, 0, some 0⟩

/-- Claim C1 witness: the isNight characterization instantiated at the
concrete events 06:00/18:00 with now = 05:00 and collar 30. -/
theorem c1_isNight_witness :
    (0 : ℚ) ≤ 30 ∧
    ((isNight wSunrise wSunset wNow 30 = true ↔
      ((toUTCMicros wNow : ℚ) < (toUTCMicros wSunrise : ℚ) - 30 * 60000000 ∨
        (toUTCMicros wSunset : ℚ) + 30 * 60000000 < (toUTCMicros wNow : ℚ)))
    ∧ (toUTCMicros wSunrise ≤ toUTCMicros wSunset →
        isNight wSunrise wSunset wSunrise 0 = false ∧
        isNight wSunrise wSunset wSunset 0 = false)) :=
  ⟨by norm_num, c1_isNight_full_timestamp wSunrise wSunset wNow 30 (by norm_num)⟩

end SunSwitcher

namespace SunSwitcher

open Real

/-- Python int() applied to a float: truncation toward zero. -/
noncomputable def truncTowardZero (x : ℝ) : ℤ :=
  if 0 ≤ x then ⌊x⌋ else ⌈x⌉

/-- Python 2 round() applied to a float: rounding half away from zero. -/
noncomputable def roundHalfAway (x : ℝ) : ℤ :=
  if 0 ≤ x then ⌊x + 1 / 2⌋ else ⌈x - 1 / 2⌉

/-- Embedding of SunriseSunset.__getRange (source lines 151-162): reduce
an angle to [0, 2*pi) by subtracting the toward-zero integer part of
value / (2*pi) and adding 2*pi once if the result is negative. -/
noncomputable def getRange (value : ℝ) : ℝ :=
  let tmp1 := value / (2 * π)
  let tmp2 := (2 * π) * (tmp1 - truncTowardZero tmp1)
  if tmp2 < 0 then tmp2 + 2 * π else tmp2

/-- The two-argument arctangent as in math.atan2 (C convention). -/
noncomputable def atan2 (y x : ℝ) : ℝ :=
  if 0 < x then arctan (y / x)
  else if x < 0 ∧ 0 ≤ y then arctan (y / x) + π
  else if x < 0 ∧ y < 0 then arctan (y / x) - π
  else if 0 < y then π / 2
  else if y < 0 then -(π / 2)
  else 0

/-- math.radians: degrees to radians. -/
noncomputable def radiansOf (d : ℝ) : ℝ := d * π / 180

/-- math.degrees: radians to degrees. -/
noncomputable def degreesOf (r : ℝ) : ℝ := r * 180 / π

/-- Embedding of the ephemeris day computation in __determineRiseSet
(source lines 95-96), with Python 2 floor division on ints (the divisors
12, 4 and 9 are positive). -/
def ephem2000Day (year month day : ℤ) : ℚ :=
  ((367 * year - (7 * (year + (month + 9) / 12)) / 4 + (275 * month) / 9 + day : ℤ) : ℚ)
    - 730531.5

/-- Julian centuries at a given hour-angle estimate (source lines 123-124):
days = ephem2000Day + utold / (2*pi), t = days / 36525. -/
noncomputable def tAt (ephemDay : ℚ) (utold : ℝ) : ℝ :=
  ((ephemDay : ℝ) + utold / (2 * π)) / 36525

/-- Mean solar longitude (source line 126). -/
noncomputable def lSun (t : ℝ) : ℝ :=
  getRange (4.8949504201433 + 628.331969753199 * t)

/-- Mean solar anomaly (source line 127). -/
noncomputable def gSun (t : ℝ) : ℝ :=
  getRange (6.2400408 + 628.3019501 * t)

/-- Equation of center (source line 128). -/
noncomputable def ecSun (t : ℝ) : ℝ :=
  0.033423 * sin (gSun t) + 0.00034907 * sin (2 * gSun t)

/-- Ecliptic longitude lam = l + ec (source line 129). -/
noncomputable def lamSun (t : ℝ) : ℝ := lSun t + ecSun t

/-- Equation of time (source line 130). -/
noncomputable def eqTime (t : ℝ) : ℝ :=
  -1 * ecSun t + 0.0430398 * sin (2 * lamSun t) - 0.00092502 * sin (4 * lamSun t)

/-- Obliquity of the ecliptic (source line 131). -/
noncomputable def oblq (t : ℝ) : ℝ := 0.409093 - 0.0002269 * t

/-- Solar declination delta = atan2(d0, sqrt(1 - d0^2)) with
d0 = sin(obl) * sin(lam) (source lines 132-133). -/
noncomputable def deltaSun (t : ℝ) : ℝ :=
  let d0 := sin (oblq t) * sin (lamSun t)
  atan2 d0 (Real.sqrt (1 - d0 * d0))

/-- The cosc quantity of one loop iteration (source line 135):
(sinAlt - sinPhi * sin(delta)) / (cosPhi * cos(delta)). -/
noncomputable def coscOf (sinAlt sinPhi cosPhi : ℝ) (t : ℝ) : ℝ :=
  (sinAlt - sinPhi * sin (deltaSun t)) / (cosPhi * cos (deltaSun t))

/-- The clamped hour-angle correction (source lines 137-142). -/
noncomputable def corrOf (sinAlt sinPhi cosPhi : ℝ) (t : ℝ) : ℝ :=
  let cosc := coscOf sinAlt sinPhi cosPhi t
  if cosc > 1 then 0
  else if cosc < -1 then π
  else atan2 (Real.sqrt (1 - cosc * cosc)) cosc

/-- One iteration of the fixed-point update (source lines 123-145): from
the current estimate produce getRange(utold - (gha + lon + rs*correction))
with gha = utold - pi + e. -/
noncomputable def stepUT (sinAlt sinPhi cosPhi lonR rs : ℝ) (ephemDay : ℚ)
    (utold : ℝ) : ℝ :=
  let t := tAt ephemDay utold
  let gha := utold - π + eqTime t
  getRange (utold - (gha + lonR + rs * corrOf sinAlt sinPhi cosPhi t))

/-- The while loop of __determineRiseOrSet (source line 120): fuel counts
the remaining iterations (the source counts up with ct < 35, so fuel is
35 - ct); the state is (ct, utold, utnew) and each pass with
abs(utold - utnew) > 0.001 replaces it by (ct+1, utnew, step utnew). -/
noncomputable def loopGo (sinAlt sinPhi cosPhi lonR rs : ℝ) (ephemDay : ℚ) :
    ℕ → ℕ → ℝ → ℝ → ℕ × ℝ × ℝ
  | 0, ct, utold, utnew => (ct, utold, utnew)
  | fuel + 1, ct, utold, utnew =>
    if 0.001 < |utold - utnew| then
      loopGo sinAlt sinPhi cosPhi lonR rs ephemDay fuel (ct + 1) utnew
        (stepUT sinAlt sinPhi cosPhi lonR rs ephemDay utnew)
    else (ct, utold, utnew)

/-- The full loop run of __determineRiseOrSet, started at utold = pi,
utnew = 0, ct = 0 with the iteration cap 35 (source lines 110-120). -/
noncomputable def runLoop (sinAlt sinPhi cosPhi lonR rs : ℝ) (ephemDay : ℚ) :
    ℕ × ℝ × ℝ :=
  loopGo sinAlt sinPhi cosPhi lonR rs ephemDay 35 0 π 0

/-- Embedding of __get24HourLocalTime (source lines 164-191): add the
stored UTC offset, correct once for the 24 hour clock when the result is
below 0 or above 24, split into hour/minute/second/microsecond by repeated
truncation, and replace those four fields of the local date. The rs
parameter is taken but never used, as in the source. Caution: the
source's datetime.replace validates its fields and raises ValueError
when one is out of range - hour 24 (adjusted decimal time exactly 24.0)
or microsecond 1000000 (fractional second rounding up) - whereas this
model stores the computed values unchecked, so an out-of-range field is
exposed to inspection rather than raised. -/
noncomputable def get24HourLocalTime (dateLocal : Instant) (offsetUTC : ℝ)
    (rs : ℝ) (decimalTime0 : ℝ) : Instant :=
  let dt1 := decimalTime0 + offsetUTC
  let dt2 := if dt1 < 0 then dt1 + 24 else if dt1 > 24 then dt1 - 24 else dt1
  let hour := truncTowardZero dt2
  let tmpA := (dt2 - (hour : ℝ)) * 60
  let minute := truncTowardZero tmpA
  let tmpB := (tmpA - (minute : ℝ)) * 60
  let second := truncTowardZero tmpB
  let micro := roundHalfAway ((tmpB - (second : ℝ)) * 1000000)
  { dateLocal with hour := hour, minute := minute, second := second,
                   micro := micro }

/-- Embedding of __determineRiseOrSet (source lines 100-149): run the
fixed-point loop, convert the final estimate to decimal hours
(degrees(utnew) / 15) and hand it to __get24HourLocalTime. -/
noncomputable def determineRiseOrSet (dateLocal : Instant) (offsetUTC : ℝ)
    (sinAlt sinPhi cosPhi lonR : ℝ) (ephemDay : ℚ) (rs : ℝ) : Instant :=
  let result := runLoop sinAlt sinPhi cosPhi lonR rs ephemDay
  get24HourLocalTime dateLocal offsetUTC rs (degreesOf result.2.2 / 15)

/-- Embedding of __determineRiseSet together with the constructor's
derived quantities (source lines 40-53 and 87-98): the sunrise uses
rs = 1 and the sunset rs = -1. -/
noncomputable def determineRiseSet (dateLocal : Instant) (lat lon : ℚ)
    (zenith : String) : Instant × Instant :=
  let ephemDay := ephem2000Day dateLocal.year dateLocal.month dateLocal.day
  let altitude := (ZENITH.lookup zenith).getD 0
  let sinAlt := sin (radiansOf (altitude : ℝ))
  let sinPhi := sin (radiansOf (lat : ℝ))
  let cosPhi := cos (radiansOf (lat : ℝ))
  let lonR := radiansOf (lon : ℝ)
  let offUTC :=
    ((offsetUTCcomputed dateLocal.hour dateLocal.minute (dateLocal.tz.getD 0) : ℚ) : ℝ)
  (determineRiseOrSet dateLocal offUTC sinAlt sinPhi cosPhi lonR ephemDay 1,
   determineRiseOrSet dateLocal offUTC sinAlt sinPhi cosPhi lonR ephemDay (-1))

/-- The body of getRange computes the scaled fractional part: subtracting
the toward-zero integer part and correcting a negative remainder once is
the same as taking the floor-based fractional part. -/
lemma wrap_toward_zero_eq_fract (c u : ℝ) (hc : 0 < c) :
    (if c * (u - (truncTowardZero u : ℝ)) < 0
      then c * (u - (truncTowardZero u : ℝ)) + c
      else c * (u - (truncTowardZero u : ℝ))) = c * Int.fract u := by
  unfold truncTowardZero
  by_cases h0 : 0 ≤ u
  · rw [if_pos h0]
    have hfr : u - ((⌊u⌋ : ℤ) : ℝ) = Int.fract u := Int.self_sub_floor u
    rw [hfr, if_neg (not_lt.mpr (mul_nonneg hc.le (Int.fract_nonneg u)))]
  · rw [if_neg h0]
    push_neg at h0
    rcases eq_or_ne (Int.fract u) 0 with hz | hnz
    · have hu0 : u - ((⌊u⌋ : ℤ) : ℝ) = 0 := by
        have h1 : u - ((⌊u⌋ : ℤ) : ℝ) = Int.fract u := Int.self_sub_floor u
        rw [h1, hz]
      have hceil : ⌈u⌉ = ⌊u⌋ := by
        conv_lhs => rw [show u = ((⌊u⌋ : ℤ) : ℝ) by linarith]
        exact Int.ceil_intCast (α := ℝ) ⌊u⌋
      rw [hceil, hz, hu0, mul_zero, if_neg (lt_irrefl 0)]
    · have hflt : ((⌊u⌋ : ℤ) : ℝ) < u := by
        have h1 : u - ((⌊u⌋ : ℤ) : ℝ) = Int.fract u := Int.self_sub_floor u
        have h2 : 0 < Int.fract u := lt_of_le_of_ne (Int.fract_nonneg u) (Ne.symm hnz)
        linarith
      have hceil : ⌈u⌉ = ⌊u⌋ + 1 := by
        refine le_antisymm (Int.ceil_le_floor_add_one u) ?_
        have h3 : ((⌊u⌋ : ℤ) : ℝ) < ((⌈u⌉ : ℤ) : ℝ) := lt_of_lt_of_le hflt (Int.le_ceil u)
        exact_mod_cast Int.lt_iff_add_one_le.mp (Int.cast_lt.mp h3)
      have hfr : u - ((⌊u⌋ : ℤ) : ℝ) = Int.fract u := Int.self_sub_floor u
      have hlt1 : Int.fract u < 1 := Int.fract_lt_one u
      rw [hceil, if_pos]
      · push_cast
        nlinarith
      · push_cast
        nlinarith

/-- getRange computes 2*pi times the fractional part of value / (2*pi). -/
lemma getRange_eq_fract (value : ℝ) :
    getRange value = 2 * π * Int.fract (value / (2 * π)) := by
  have h2pi : (0:ℝ) < 2 * π := by positivity
  simpa only [getRange] using
    wrap_toward_zero_eq_fract (2 * π) (value / (2 * π)) h2pi

/-- Claim C5: getRange is total and for every real input returns a value
in [0, 2*pi), including negative inputs; it is idempotent and
2*pi-periodic. -/
theorem c5_getRange_spec (x : ℝ) :
    (0 ≤ getRange x ∧ getRange x < 2 * π)
    ∧ getRange (getRange x) = getRange x
    ∧ getRange (x + 2 * π) = getRange x := by
  have h2pi : (0:ℝ) < 2 * π := by positivity
  have hx := getRange_eq_fract x
  refine ⟨⟨?_, ?_⟩, ?_, ?_⟩
  · rw [hx]
    exact mul_nonneg h2pi.le (Int.fract_nonneg _)
  · rw [hx]
    calc 2 * π * Int.fract (x / (2 * π)) < 2 * π * 1 := by
          exact (mul_lt_mul_left h2pi).mpr (Int.fract_lt_one _)
      _ = 2 * π := mul_one _
  · rw [getRange_eq_fract (getRange x), hx,
      mul_div_cancel_left₀ _ (ne_of_gt h2pi), Int.fract_fract]
  · rw [getRange_eq_fract (x + 2 * π), hx, add_div,
      div_self (ne_of_gt h2pi), Int.fract_add_one]

/-- On exit of the bounded while loop, either the convergence test holds
or the iteration counter has consumed all the fuel. -/
lemma loopGo_exit (sinAlt sinPhi cosPhi lonR rs : ℝ) (ephemDay : ℚ) :
    ∀ (fuel ct : ℕ) (uo un : ℝ),
      (loopGo sinAlt sinPhi cosPhi lonR rs ephemDay fuel ct uo un).1 ≤ ct + fuel
      ∧ (|(loopGo sinAlt sinPhi cosPhi lonR rs ephemDay fuel ct uo un).2.1
            - (loopGo sinAlt sinPhi cosPhi lonR rs ephemDay fuel ct uo un).2.2| ≤ 0.001
          ∨ (loopGo sinAlt sinPhi cosPhi lonR rs ephemDay fuel ct uo un).1 = ct + fuel) := by
  intro fuel
  induction fuel with
  | zero =>
    intro ct uo un
    simp [loopGo]
  | succ f ih =>
    intro ct uo un
    rw [loopGo]
    by_cases hcond : (0.001 : ℝ) < |uo - un|
    · rw [if_pos hcond]
      have h := ih (ct + 1) un (stepUT sinAlt sinPhi cosPhi lonR rs ephemDay un)
      refine ⟨le_trans h.1 (by omega), ?_⟩
      rcases h.2 with h2 | h2
      · exact Or.inl h2
      · right
        rw [h2]
        omega
    · rw [if_neg hcond]
      exact ⟨by omega, Or.inl (le_of_not_lt hcond)⟩

/-- Claim C6: each hour-angle computation terminates: the loop stops as
soon as the successive estimates differ by at most 0.001 or after at most
35 iterations, and in either case the last estimate is converted to a
local time and returned without any error. -/
theorem c6_loop_terminates (sinAlt sinPhi cosPhi lonR rs : ℝ) (ephemDay : ℚ)
    (dateLocal : Instant) (offsetUTC : ℝ) :
    (runLoop sinAlt sinPhi cosPhi lonR rs ephemDay).1 ≤ 35
    ∧ (|(runLoop sinAlt sinPhi cosPhi lonR rs ephemDay).2.1
          - (runLoop sinAlt sinPhi cosPhi lonR rs ephemDay).2.2| ≤ 0.001
        ∨ (runLoop sinAlt sinPhi cosPhi lonR rs ephemDay).1 = 35)
    ∧ determineRiseOrSet dateLocal offsetUTC sinAlt sinPhi cosPhi lonR ephemDay rs
        = get24HourLocalTime dateLocal offsetUTC rs
            (degreesOf (runLoop sinAlt sinPhi cosPhi lonR rs ephemDay).2.2 / 15) := by
  have h := loopGo_exit sinAlt sinPhi cosPhi lonR rs ephemDay 35 0 π 0
  exact ⟨by simpa [runLoop] using h.1, by simpa [runLoop] using h.2, rfl⟩

/-- Claim C7: at the converged hour angle pi/12 (decimal UTC hour exactly
1.0) under a stored UTC offset of 23 hours - an offset the constructor
holds for a local time of 23:30 at tz +23:00 - the adjusted decimal time
is exactly 24.0, the wraparound branch does not fire (its test is strictly
greater than 24.0), and the hour spliced into the result is 24, which is
not a valid hour: datetime.replace would raise. -/
theorem c7_wrap_exact24 :
    (get24HourLocalTime ⟨2020, 6, 21, 23, 30, 0, 0, some 1380⟩ 23 1
        (degreesOf (π / 12) / 15)).hour = 24 := by
  have hdeg : degreesOf (π / 12) / 15 = 1 := by
    unfold degreesOf
    have hpi := Real.pi_ne_zero
    field_simp
    ring
  rw [hdeg]
  unfold get24HourLocalTime truncTowardZero
  norm_num

/-- Claim C9: both computed instants carry the calendar date (year, month,
day) and the timezone of the input instant; the solver replaces only the
hour, minute, second and microsecond fields. -/
theorem c9_riseSet_preserves_date (dateLocal : Instant) (lat lon : ℚ)
    (zenith : String) :
    ((determineRiseSet dateLocal lat lon zenith).1.year = dateLocal.year
      ∧ (determineRiseSet dateLocal lat lon zenith).1.month = dateLocal.month
      ∧ (determineRiseSet dateLocal lat lon zenith).1.day = dateLocal.day
      ∧ (determineRiseSet dateLocal lat lon zenith).1.tz = dateLocal.tz)
    ∧ ((determineRiseSet dateLocal lat lon zenith).2.year = dateLocal.year
      ∧ (determineRiseSet dateLocal lat lon zenith).2.month = dateLocal.month
      ∧ (determineRiseSet dateLocal lat lon zenith).2.day = dateLocal.day
      ∧ (determineRiseSet dateLocal lat lon zenith).2.tz = dateLocal.tz) :=
  ⟨⟨rfl, rfl, rfl, rfl⟩, ⟨rfl, rfl, rfl, rfl⟩⟩

/-- For dates with year 1..9999, month 1..12, day 1..31 and an hour angle
in [0, 2*pi], the Julian-century value t stays within 100 in absolute
value. -/
lemma tAt_bound (year month day : ℤ) (ut : ℝ)
    (hy1 : 1 ≤ year) (hy2 : year ≤ 9999) (hm1 : 1 ≤ month) (hm2 : month ≤ 12)
    (hd1 : 1 ≤ day) (hd2 : day ≤ 31) (hu1 : 0 ≤ ut) (hu2 : ut ≤ 2 * π) :
    |tAt (ephem2000Day year month day) ut| ≤ 100 := by
  have hA1 : (-17132 : ℤ)
      ≤ 367 * year - (7 * (year + (month + 9) / 12)) / 4 + (275 * month) / 9 + day := by
    omega
  have hA2 : 367 * year - (7 * (year + (month + 9) / 12)) / 4 + (275 * month) / 9 + day
      ≤ (3670030 : ℤ) := by
    omega
  have hArl : (-17132 : ℝ) ≤
      ((367 * year - (7 * (year + (month + 9) / 12)) / 4 + (275 * month) / 9 + day : ℤ) : ℝ) := by
    exact_mod_cast hA1
  have hAru :
      ((367 * year - (7 * (year + (month + 9) / 12)) / 4 + (275 * month) / 9 + day : ℤ) : ℝ)
        ≤ (3670030 : ℝ) := by
    exact_mod_cast hA2
  have hfrac1 : 0 ≤ ut / (2 * π) := div_nonneg hu1 (by positivity)
  have hfrac2 : ut / (2 * π) ≤ 1 := (div_le_one (by positivity)).mpr hu2
  unfold tAt ephem2000Day
  rw [abs_le]
  push_cast
  push_cast at hArl hAru
  constructor <;> [linarith; linarith]

/-- For Julian centuries bounded by 100, the obliquity stays well inside
(-pi/2, pi/2), so its cosine is positive. -/
lemma cos_oblq_pos (t : ℝ) (ht : |t| ≤ 100) : 0 < cos (oblq t) := by
  rw [abs_le] at ht
  have hb1 : -(0.44 : ℝ) ≤ oblq t := by
    unfold oblq
    linarith
  have hb2 : oblq t ≤ (0.44 : ℝ) := by
    unfold oblq
    linarith
  have hpi := Real.pi_gt_three
  apply Real.cos_pos_of_mem_Ioo
  rw [Set.mem_Ioo]
  constructor <;> linarith

/-- For Julian centuries bounded by 100, the solar declination lies in
(-pi/2, pi/2): the square of sin(obl)*sin(lam) stays below 1, the sqrt
argument of atan2 is positive, and the cosine of the resulting arctangent
is positive. -/
lemma cos_deltaSun_pos (t : ℝ) (ht : |t| ≤ 100) : 0 < cos (deltaSun t) := by
  have hco := cos_oblq_pos t ht
  have hsq : (sin (oblq t) * sin (lamSun t)) * (sin (oblq t) * sin (lamSun t)) < 1 := by
    nlinarith [Real.sin_sq_add_cos_sq (oblq t), Real.sin_sq_le_one (lamSun t),
      sq_nonneg (sin (oblq t)), mul_pos hco hco]
  have hsqrt : 0 < Real.sqrt
      (1 - (sin (oblq t) * sin (lamSun t)) * (sin (oblq t) * sin (lamSun t))) :=
    Real.sqrt_pos.mpr (by linarith)
  show 0 < cos (atan2 (sin (oblq t) * sin (lamSun t)) (Real.sqrt
      (1 - (sin (oblq t) * sin (lamSun t)) * (sin (oblq t) * sin (lamSun t)))))
  unfold atan2
  rw [if_pos hsqrt]
  exact Real.cos_arctan_pos _

/-- Claim C10: for every latitude accepted by the constructor and every
hour-angle estimate the loop can hold, the divisor cosPhi * cos(delta) of
the cosc computation is strictly positive, so the division never divides
by zero. -/
theorem c10_divisor_pos (year month day : ℤ) (lat ut : ℝ)
    (hy1 : 1 ≤ year) (hy2 : year ≤ 9999) (hm1 : 1 ≤ month) (hm2 : month ≤ 12)
    (hd1 : 1 ≤ day) (hd2 : day ≤ 31) (hlat : |lat| ≤ 63)
    (hu1 : 0 ≤ ut) (hu2 : ut ≤ 2 * π) :
    0 < cos (radiansOf lat) * cos (deltaSun (tAt (ephem2000Day year month day) ut)) := by
  have ht := tAt_bound year month day ut hy1 hy2 hm1 hm2 hd1 hd2 hu1 hu2
  have h2 := cos_deltaSun_pos _ ht
  have h1 : 0 < cos (radiansOf lat) := by
    unfold radiansOf
    rw [abs_le] at hlat
    have hpi := Real.pi_pos
    have hb1 : lat * π ≤ 63 * π := mul_le_mul_of_nonneg_right hlat.2 hpi.le
    have hb2 : (-63 : ℝ) * π ≤ lat * π := mul_le_mul_of_nonneg_right hlat.1 hpi.le
    apply Real.cos_pos_of_mem_Ioo
    rw [Set.mem_Ioo]
    constructor <;> linarith
  exact mul_pos h1 h2

/-- Claim C10 witness: the divisor positivity instantiated at the date
2020-06-21, latitude 40.7 and hour angle 0. -/
theorem c10_divisor_pos_witness :
    0 < cos (radiansOf 40.7) * cos (deltaSun (tAt (ephem2000Day 2020 6 21) 0)) :=
  c10_divisor_pos 2020 6 21 40.7 0 (by norm_num) (by norm_num) (by norm_num)
    (by norm_num) (by norm_num) (by norm_num)
    (by rw [abs_le]; constructor <;> norm_num) (le_refl 0)
    (by positivity)

end SunSwitcher
